import Mathlib

/-!
A shallow embedding of the kubelet resource-monitoring worker
(pkg/discovery/monitoring/kubelet/kubelet_monitor.go) of the kubeturbo
repository, together with theorems settling the frozen claims about it.

Machine floating-point values (float64/float32 in the source) are modelled
by rationals; unsigned integer statistics are modelled by rationals as well,
since the source immediately converts them to float64.  Fallible external
calls are modelled by `Except Unit` results supplied in a per-node
environment; a Go nil-pointer dereference (panic) is modelled by `Option`
with `none` standing for the fault.
-/

namespace Kubeturbo

/-- Entity types of metric entries (metrics.DiscoveredEntityType). -/
inductive DiscoveredEntityType
  | node
  | pod
  | container
  | application
  deriving DecidableEq, Repr

/-- Resource/metric names used by the monitor (metrics package constants,
plus the "NodeCacheUsed" ad-hoc state metric name). -/
inductive ResourceKind
  | cpu
  | memory
  | cpuRequest
  | memoryRequest
  | vStorage
  | storageAmount
  | numPods
  | vcpuThrottling
  | cpuFrequency
  | nodeCacheUsed
  deriving DecidableEq, Repr

/-- Roles of metric entries (metrics.Used / Capacity / Available / Threshold;
`state` stands for EntityStateMetric entries, which carry no role). -/
inductive MetricRole
  | used
  | capacity
  | available
  | threshold
  | state
  deriving DecidableEq, Repr

/-- metrics.ThrottlingCumulative: one cumulative throttling sample. -/
structure ThrottlingCumulative where
  throttled : ℚ
  total : ℚ
  timestamp : Int
  deriving DecidableEq, Repr

/-- The value carried by a metric entry: a scalar, a list of timestamped
points, or a list of cumulative throttling samples. -/
inductive MetricValue
  | scalar (v : ℚ)
  | points (ps : List (ℚ × Int))
  | throttling (ts : List ThrottlingCumulative)
  deriving DecidableEq, Repr

/-- One entry of the metric sink (metrics.EntityResourceMetric or
metrics.EntityStateMetric, identified by entity type, key, resource, role). -/
structure MetricEntry where
  etype : DiscoveredEntityType
  key : String
  resource : ResourceKind
  role : MetricRole
  value : MetricValue
  deriving DecidableEq, Repr

/-- Modelled from the spec: util.MetricNanoToUnit (util package is outside
src/); converts nanocore CPU usage to core units. -/
def MetricNanoToUnit (v : ℚ) : ℚ := v / 1000000000

/-- Modelled from the spec: util.Base2BytesToKilobytes (util package is
outside src/); base-2 byte count to kilobytes. -/
def Base2BytesToKilobytes (v : ℚ) : ℚ := v / 1024

/-- Modelled from the spec: util.Base2BytesToMegabytes (util package is
outside src/); base-2 byte count to megabytes. -/
def Base2BytesToMegabytes (v : ℚ) : ℚ := v / (1024 * 1024)

/-- Modelled from the spec: util.Base2MegabytesToBytes (util package is
outside src/); base-2 megabyte count to bytes. -/
def Base2MegabytesToBytes (v : ℚ) : ℚ := v * 1024 * 1024

/-- Modelled from the spec: util.PodMetricId (util package is outside src/);
entity keys are deterministic functions of the namespace/pod identity. -/
def PodMetricId (nspace podName : String) : String := nspace ++ "/" ++ podName

/-- Modelled from the spec: util.ContainerMetricId (util package is outside
src/); derived from the pod metric id and the container name. -/
def ContainerMetricId (podMId containerName : String) : String :=
  podMId ++ "/" ++ containerName

/-- Modelled from the spec: util.ApplicationMetricId (util package is outside
src/); a deterministic function of the container metric id. -/
def ApplicationMetricId (containerMId : String) : String := containerMId

/-- Modelled from the spec: util.PodVolumeMetricId (util package is outside
src/); derived from the pod key and the volume name. -/
def PodVolumeMetricId (podKey volName : String) : String :=
  podKey ++ "/" ++ volName

/-- kubeclient.ContainerCPUTotal (kubeclient package is outside src/); the
family name is given in the source doc comment of parseMetricFamilies. -/
def ContainerCPUTotal : String := "container_cpu_cfs_periods_total"

/-- kubeclient.ContainerCPUThrottledTotal (kubeclient package is outside
src/); the family name is given in the source doc comment of
parseMetricFamilies. -/
def ContainerCPUThrottledTotal : String :=
  "container_cpu_cfs_throttled_periods_total"

/-! ## Eviction thresholds (evictionapi types and parseThresholdValues) -/

/-- Eviction signals relevant to parseThresholdValues; every other signal
falls into the default case of the switch. -/
inductive EvictionSignal
  | memoryAvailable
  | nodeFsAvailable
  | imageFsAvailable
  | other (s : String)
  deriving DecidableEq, Repr

/-- evictionapi.ThresholdValue: either a percentage (a fraction of 1, as the
source comment notes) or an absolute quantity; the Go zero value of the
unused field is 0. -/
structure ThresholdValue where
  percentage : ℚ
  quantity : ℚ
  deriving DecidableEq, Repr

/-- evictionapi.Threshold restricted to the fields the monitor reads. -/
structure EvictionThreshold where
  signal : EvictionSignal
  value : ThresholdValue
  deriving DecidableEq, Repr

/-- GetThresholdPercentile: a nonzero Percentage is used directly (scaled
from a 0-1 fraction to 0-100); otherwise the absolute quantity is converted
relative to capacity. -/
def GetThresholdPercentile (value : ThresholdValue) (capacity : ℚ) : ℚ :=
  if value.percentage ≠ 0 then
    value.percentage * 100
  else
    value.quantity * 100 / capacity

/-- The signal-dispatch loop of parseThresholdValues: the last threshold of
each signal kind wins; unknown signals are ignored.  Components of the
result: (memThreshold, rootfsThreshold, imagefsThreshold) before fallbacks. -/
def thresholdLoop (memoryCapacity rootfsCapacity imagefsCapacity : ℚ)
    (thresholds : List EvictionThreshold) : ℚ × ℚ × ℚ :=
  thresholds.foldl
    (fun acc t =>
      match t.signal with
      | EvictionSignal.memoryAvailable =>
          (GetThresholdPercentile t.value memoryCapacity, acc.2.1, acc.2.2)
      | EvictionSignal.nodeFsAvailable =>
          (acc.1, GetThresholdPercentile t.value rootfsCapacity, acc.2.2)
      | EvictionSignal.imageFsAvailable =>
          (acc.1, acc.2.1, GetThresholdPercentile t.value imagefsCapacity)
      | EvictionSignal.other _ => acc)
    (0, 0, 0)

/-- parseThresholdValues, value part: the three thresholds after the
fallback blocks, in source order.  Note that the image-filesystem fallback
block of the source assigns 15 to the ROOTFS variable (overwriting any
earlier rootfs value) and leaves the imagefs variable unchanged. -/
def parseThresholdValues (memoryCapacity rootfsCapacity imagefsCapacity : ℚ)
    (thresholds : List EvictionThreshold) : ℚ × ℚ × ℚ :=
  let loop := thresholdLoop memoryCapacity rootfsCapacity imagefsCapacity thresholds
  let memThreshold := loop.1
  let rootfsThreshold := loop.2.1
  let imagefsThreshold := loop.2.2
  let memThreshold :=
    if memThreshold ≤ 0 ∨ memThreshold ≥ 100 then
      Base2MegabytesToBytes 100 * 100 / memoryCapacity
    else memThreshold
  let rootfsThreshold :=
    if rootfsThreshold ≤ 0 ∨ rootfsThreshold ≥ 100 then 10 else rootfsThreshold
  let rootfsThreshold :=
    if imagefsThreshold ≤ 0 ∨ imagefsThreshold ≥ 100 then 15 else rootfsThreshold
  (memThreshold, rootfsThreshold, imagefsThreshold)

/-- parseThresholdValues, sink part: the three Threshold entries it adds
(memory at the node key, rootfs at the node key, imagefs at the derived
imagefs key). -/
def parseThresholdMetricEntries (key : String) (ths : ℚ × ℚ × ℚ) :
    List MetricEntry :=
  [⟨DiscoveredEntityType.node, key, ResourceKind.memory, MetricRole.threshold,
      MetricValue.scalar ths.1⟩,
   ⟨DiscoveredEntityType.node, key, ResourceKind.vStorage, MetricRole.threshold,
      MetricValue.scalar ths.2.1⟩,
   ⟨DiscoveredEntityType.node, key ++ "-imagefs", ResourceKind.vStorage,
      MetricRole.threshold, MetricValue.scalar ths.2.2⟩]

/-! ## Counter-stream correlator (parseMetricFamilies) -/

/-- One prometheus label pair (dto.LabelPair). -/
structure LabelPair where
  name : String
  value : String
  deriving DecidableEq, Repr

/-- One prometheus metric point restricted to the fields the monitor reads:
its label set and its counter value. -/
structure PromMetric where
  labels : List LabelPair
  counterValue : ℚ
  deriving DecidableEq, Repr

/-- dto.MetricType restricted to what the type check distinguishes. -/
inductive PromMetricKind
  | counter
  | nonCounter
  deriving DecidableEq, Repr

/-- dto.MetricFamily: a typed list of metric points; entries of the list may
be nil in Go, hence the Option. -/
structure PromMetricFamily where
  kind : PromMetricKind
  metric : List (Option PromMetric)
  deriving DecidableEq, Repr

/-- The intermediate correlation record (type throttlingMetric). -/
structure throttlingMetric where
  cpuThrottled : ℚ
  cpuTotal : ℚ
  deriving DecidableEq, Repr

/-- The parsed map is modelled as an association list keyed by the derived
container identity; Go map insertion is update-in-place or append. -/
def upsertTM (parsed : List (String × throttlingMetric)) (k : String)
    (v : throttlingMetric) : List (String × throttlingMetric) :=
  match parsed with
  | [] => [(k, v)]
  | (k0, v0) :: rest =>
      if k0 = k then (k, v) :: rest else (k0, v0) :: upsertTM rest k v

/-- Lookup in the parsed map. -/
def lookupTM (parsed : List (String × throttlingMetric)) (k : String) :
    Option throttlingMetric :=
  match parsed with
  | [] => none
  | (k0, v0) :: rest => if k0 = k then some v0 else lookupTM rest k

/-- The label switch of parseMetricFamilies: updates the accumulated
(name, namespace, podName) triple from one label. -/
def labelStep (acc : String × String × String) (l : LabelPair) :
    String × String × String :=
  if l.name = "container" ∨ l.name = "container_name" then
    (l.value, acc.2.1, acc.2.2)
  else if l.name = "namespace" then
    (acc.1, l.value, acc.2.2)
  else if l.name = "pod" ∨ l.name = "pod_name" then
    (acc.1, acc.2.1, l.value)
  else acc

/-- Extracts (container name, namespace, pod name) from a label set; absent
labels leave the Go zero value "". -/
def extractLabels (ls : List LabelPair) : String × String × String :=
  ls.foldl labelStep ("", "", "")

/-- Processing of one metric point of the family named metricName: nil
points and points without a container-level label are skipped; otherwise the
point merges into the record at identity "namespace/pod/container", the
"total periods" family writing cpuTotal and every other family writing
cpuThrottled. -/
def processMetric (metricName : String)
    (parsed : List (String × throttlingMetric)) :
    Option PromMetric → List (String × throttlingMetric)
  | none => parsed
  | some metric =>
      let ext := extractLabels metric.labels
      if ext.1 = "" then parsed
      else
        let metricID := ext.2.1 ++ "/" ++ ext.2.2 ++ "/" ++ ext.1
        let tm := (lookupTM parsed metricID).getD ⟨0, 0⟩
        let tm :=
          if metricName = ContainerCPUTotal then
            { tm with cpuTotal := metric.counterValue }
          else
            { tm with cpuThrottled := metric.counterValue }
        upsertTM parsed metricID tm

/-- The family loop of parseMetricFamilies: a family that is not of counter
type aborts the whole loop, returning what was parsed so far. -/
def parseMetricFamiliesAux (parsed : List (String × throttlingMetric)) :
    List (String × PromMetricFamily) → List (String × throttlingMetric)
  | [] => parsed
  | (metricName, family) :: rest =>
      if family.kind ≠ PromMetricKind.counter then parsed
      else
        parseMetricFamiliesAux (family.metric.foldl (processMetric metricName) parsed) rest

/-- parseMetricFamilies: correlates the incoming counter families into
per-container throttling records keyed by "namespace/pod/container".  The
input map is modelled as an association list in one iteration order. -/
def parseMetricFamilies (metricFamilies : List (String × PromMetricFamily)) :
    List (String × throttlingMetric) :=
  parseMetricFamiliesAux [] metricFamilies

/-- genThrottlingMetrics: the sink entry generated for one container
identity and throttling record. -/
def genThrottlingMetricEntry (etype : DiscoveredEntityType) (key : String)
    (throttled total : ℚ) (timestamp : Int) : MetricEntry :=
  ⟨etype, key, ResourceKind.vcpuThrottling, MetricRole.used,
    MetricValue.throttling [⟨throttled, total, timestamp⟩]⟩

/-- generateThrottlingMetrics: one sink entry per parsed identity (the Go
nil check on the map value never fires, map values being non-nil records). -/
def generateThrottlingMetrics (metricFamilies : List (String × PromMetricFamily))
    (timestamp : Int) : List MetricEntry :=
  (parseMetricFamilies metricFamilies).map
    (fun p => genThrottlingMetricEntry DiscoveredEntityType.container p.1
      p.2.cpuThrottled p.2.cpuTotal timestamp)

/-! ## Summary statistics (stats.NodeStats / stats.PodStats) restricted to
the fields the monitor reads; optional pointer fields become Option. -/

/-- stats.CPUStats. -/
structure CPUStats where
  usageNanoCores : Option ℚ
  deriving DecidableEq, Repr

/-- stats.MemoryStats. -/
structure MemoryStats where
  workingSetBytes : Option ℚ
  availableBytes : Option ℚ
  deriving DecidableEq, Repr

/-- stats.FsStats. -/
structure FsStats where
  capacityBytes : Option ℚ
  usedBytes : Option ℚ
  availableBytes : Option ℚ
  deriving DecidableEq, Repr

/-- stats.RuntimeStats. -/
structure RuntimeStats where
  imageFs : Option FsStats
  deriving DecidableEq, Repr

/-- stats.NodeStats. -/
structure NodeStats where
  nodeName : String
  cpu : Option CPUStats
  memory : Option MemoryStats
  fs : Option FsStats
  runtime : Option RuntimeStats
  deriving DecidableEq, Repr

/-- stats.PodReference. -/
structure PodReference where
  nspace : String
  podName : String
  deriving DecidableEq, Repr

/-- stats.ContainerStats. -/
structure ContainerStats where
  name : String
  cpu : Option CPUStats
  memory : Option MemoryStats
  deriving DecidableEq, Repr

/-- stats.VolumeStats. -/
structure VolumeStats where
  name : String
  capacityBytes : Option ℚ
  usedBytes : Option ℚ
  deriving DecidableEq, Repr

/-- stats.PodStats. -/
structure PodStats where
  podRef : PodReference
  containers : List ContainerStats
  ephemeralStorage : Option FsStats
  volumeStats : List VolumeStats
  deriving DecidableEq, Repr

/-- stats.Summary. -/
structure Summary where
  node : NodeStats
  pods : List PodStats
  deriving DecidableEq, Repr

/-- Modelled from the spec: util.NodeStatsKeyFunc (util package is outside
src/); the node entity key is derived from the node name. -/
def NodeStatsKeyFunc (ns : NodeStats) : String := ns.nodeName

/-- Modelled from the spec: util.NodeKeyFunc (util package is outside src/);
the node entity key is derived from the node name. -/
def NodeKeyFunc (nodeName : String) : String := nodeName

/-! ## Metric generators -/

/-- genUsedMetrics: CPU-used and memory-used point entries sharing one
timestamp. -/
def genUsedMetrics (etype : DiscoveredEntityType) (key : String)
    (cpu memory : ℚ) (timestamp : Int) : List MetricEntry :=
  [⟨etype, key, ResourceKind.cpu, MetricRole.used,
      MetricValue.points [(cpu, timestamp)]⟩,
   ⟨etype, key, ResourceKind.memory, MetricRole.used,
      MetricValue.points [(memory, timestamp)]⟩]

/-- genRequestUsedMetrics: CPURequest-used and MemoryRequest-used point
entries sharing one timestamp. -/
def genRequestUsedMetrics (etype : DiscoveredEntityType) (key : String)
    (cpu memory : ℚ) (timestamp : Int) : List MetricEntry :=
  [⟨etype, key, ResourceKind.cpuRequest, MetricRole.used,
      MetricValue.points [(cpu, timestamp)]⟩,
   ⟨etype, key, ResourceKind.memoryRequest, MetricRole.used,
      MetricValue.points [(memory, timestamp)]⟩]

/-- genNumConsumersUsedMetrics: the constant one-consumer entry per pod. -/
def genNumConsumersUsedMetrics (etype : DiscoveredEntityType) (key : String) :
    List MetricEntry :=
  [⟨etype, key, ResourceKind.numPods, MetricRole.used, MetricValue.scalar 1⟩]

/-- genFSMetrics: always a capacity entry; an available entry for node
entities, a used entry otherwise. -/
def genFSMetrics (etype : DiscoveredEntityType) (key : String)
    (capacity used available : ℚ) : List MetricEntry :=
  ⟨etype, key, ResourceKind.vStorage, MetricRole.capacity,
      MetricValue.scalar capacity⟩ ::
  (if etype = DiscoveredEntityType.node then
    [⟨etype, key, ResourceKind.vStorage, MetricRole.available,
        MetricValue.scalar available⟩]
  else
    [⟨etype, key, ResourceKind.vStorage, MetricRole.used,
        MetricValue.scalar used⟩])

/-- genPVMetrics: StorageAmount capacity and used entries for a volume. -/
def genPVMetrics (etype : DiscoveredEntityType) (key : String)
    (capacity used : ℚ) : List MetricEntry :=
  [⟨etype, key, ResourceKind.storageAmount, MetricRole.capacity,
      MetricValue.scalar capacity⟩,
   ⟨etype, key, ResourceKind.storageAmount, MetricRole.used,
      MetricValue.scalar used⟩]

/-- parseNodeCpuFreq: the node CPU-frequency state entry. -/
def cpuFreqEntry (nodeName : String) (cpuFrequencyMHz : ℚ) : MetricEntry :=
  ⟨DiscoveredEntityType.node, NodeKeyFunc nodeName, ResourceKind.cpuFrequency,
    MetricRole.state, MetricValue.scalar cpuFrequencyMHz⟩

/-- The "NodeCacheUsed" state entry added on a cache hit in full discovery. -/
def nodeCacheUsedMetric (nodeName : String) : MetricEntry :=
  ⟨DiscoveredEntityType.node, NodeKeyFunc nodeName, ResourceKind.nodeCacheUsed,
    MetricRole.state, MetricValue.scalar 1⟩

/-! ## parseNodeStats

The source guards the image-filesystem available value with a nil check on
UsedBytes but dereferences AvailableBytes; a nil AvailableBytes under a
non-nil UsedBytes is therefore a nil-pointer dereference, modelled as
`none` (the Go panic). -/

/-- The imagefs available-bytes computation of parseNodeStats, including the
mismatched guard of the source: the guard tests UsedBytes but the body
dereferences AvailableBytes. -/
def imagefsAvailableResult (ns : NodeStats) : Option ℚ :=
  match ns.runtime with
  | none => some 0
  | some rt =>
      match rt.imageFs with
      | none => some 0
      | some ifs =>
          match ifs.usedBytes with
          | none => some 0
          | some _ =>
              match ifs.availableBytes with
              | none => none
              | some a => some a

/-- parseNodeStats: the list of sink entries it adds, or `none` when the
source would panic on the imagefs available-bytes dereference. -/
def parseNodeStats (isFullDiscovery : Bool) (ns : NodeStats)
    (thresholds : List EvictionThreshold) (timestamp : Int) :
    Option (List MetricEntry) :=
  let cpuUsageCore :=
    match ns.cpu with
    | some c =>
        match c.usageNanoCores with
        | some v => MetricNanoToUnit v
        | none => 0
    | none => 0
  let memoryWorkingSetBytes :=
    match ns.memory with
    | some mem =>
        match mem.workingSetBytes with
        | some v => v
        | none => 0
    | none => 0
  let memoryAvailableBytes :=
    match ns.memory with
    | some mem =>
        match mem.availableBytes with
        | some v => v
        | none => 0
    | none => 0
  let rootfsCapacityBytes :=
    match ns.fs with
    | some fs =>
        match fs.capacityBytes with
        | some v => v
        | none => 0
    | none => 0
  let rootfsAvailableBytes :=
    match ns.fs with
    | some fs =>
        match fs.availableBytes with
        | some v => v
        | none => 0
    | none => 0
  let imagefsCapacityBytes :=
    match ns.runtime with
    | some rt =>
        match rt.imageFs with
        | some ifs =>
            match ifs.capacityBytes with
            | some v => v
            | none => 0
        | none => 0
    | none => 0
  match imagefsAvailableResult ns with
  | none => none
  | some imagefsAvailableBytes =>
      let key := NodeStatsKeyFunc ns
      let memoryWorkingSetKiloBytes := Base2BytesToKilobytes memoryWorkingSetBytes
      let memoryCapacityBytes := memoryAvailableBytes + memoryWorkingSetBytes
      some
        (genUsedMetrics DiscoveredEntityType.node key cpuUsageCore
            memoryWorkingSetKiloBytes timestamp ++
          (if isFullDiscovery then
            genFSMetrics DiscoveredEntityType.node key rootfsCapacityBytes 0
                rootfsAvailableBytes ++
              genFSMetrics DiscoveredEntityType.node (key ++ "-imagefs")
                imagefsCapacityBytes 0 imagefsAvailableBytes ++
              parseThresholdMetricEntries key
                (parseThresholdValues memoryCapacityBytes rootfsCapacityBytes
                  imagefsCapacityBytes thresholds)
          else []))

/-! ## parseContainerStats / parseVolumeStats / parsePodStats -/

/-- parseContainerStats: totals over containers with both CPU and memory
data, together with the per-container and per-application entries; a
container missing either field is skipped entirely. -/
def parseContainerStats (pod : PodStats) (timestamp : Int) :
    ℚ × ℚ × List MetricEntry :=
  let podMId := PodMetricId pod.podRef.nspace pod.podRef.podName
  pod.containers.foldl
    (fun acc container =>
      match container.cpu, container.memory with
      | some c, some mem =>
          (match c.usageNanoCores, mem.workingSetBytes with
          | some nano, some ws =>
              let cpuUsed := MetricNanoToUnit nano
              let memUsed := Base2BytesToKilobytes ws
              let containerMId := ContainerMetricId podMId container.name
              let appMId := ApplicationMetricId containerMId
              (acc.1 + cpuUsed, acc.2.1 + memUsed,
                acc.2.2 ++
                  genUsedMetrics DiscoveredEntityType.container containerMId
                    cpuUsed memUsed timestamp ++
                  genRequestUsedMetrics DiscoveredEntityType.container
                    containerMId cpuUsed memUsed timestamp ++
                  genUsedMetrics DiscoveredEntityType.application appMId
                    cpuUsed memUsed timestamp)
          | _, _ => acc)
      | _, _ => acc)
    (0, 0, [])

/-- parseVolumeStats: capacity and used entries per volume, missing fields
defaulting to zero. -/
def parseVolumeStats (volStats : List VolumeStats) (podKey : String) :
    List MetricEntry :=
  volStats.foldl
    (fun acc volStat =>
      let capacity :=
        match volStat.capacityBytes with
        | some v => Base2BytesToMegabytes v
        | none => 0
      let used :=
        match volStat.usedBytes with
        | some v => Base2BytesToMegabytes v
        | none => 0
      let volKey := PodVolumeMetricId podKey volStat.name
      acc ++ genPVMetrics DiscoveredEntityType.pod volKey capacity used)
    []

/-- parsePodStats: per-pod entries in source order (container entries first,
then pod used entries, then in full discovery the consumer-count, ephemeral
filesystem and, when the PersistentVolumes feature gate is enabled, volume
entries). -/
def parsePodStats (isFullDiscovery pvFeatureEnabled : Bool)
    (podStats : List PodStats) (timestamp : Int) : List MetricEntry :=
  podStats.foldl
    (fun acc pod =>
      let parsedC := parseContainerStats pod timestamp
      let key := PodMetricId pod.podRef.nspace pod.podRef.podName
      let ephemeralFsCapacity :=
        match pod.ephemeralStorage with
        | some es =>
            match es.capacityBytes with
            | some v => Base2BytesToMegabytes v
            | none => 0
        | none => 0
      let ephemeralFsUsed :=
        match pod.ephemeralStorage with
        | some es =>
            match es.usedBytes with
            | some v => Base2BytesToMegabytes v
            | none => 0
        | none => 0
      acc ++ parsedC.2.2 ++
        genUsedMetrics DiscoveredEntityType.pod key parsedC.1 parsedC.2.1
          timestamp ++
        (if isFullDiscovery then
          genNumConsumersUsedMetrics DiscoveredEntityType.pod key ++
            genFSMetrics DiscoveredEntityType.pod key ephemeralFsCapacity
              ephemeralFsUsed 0 ++
            (if pvFeatureEnabled then parseVolumeStats pod.volumeStats key
            else [])
        else []))
    []

/-! ## Scrape pipeline (scrapeKubelet) and cycle orchestrator
(RetrieveResourceStat)

The external stats client is modelled by a per-node environment carrying
each call's result; `Except.error ()` stands for a failed call. -/

/-- The external-call results available to one node's scrape task. -/
structure NodeEnv where
  name : String
  cpuFreq : Except Unit ℚ
  nodeIP : Except Unit String
  summary : Except Unit Summary
  cacheUsed : Bool
  thresholds : Except Unit (List EvictionThreshold)
  metricFamilies : Except Unit (List (String × PromMetricFamily))
  deriving Repr

/-- The tail of scrapeKubelet after a successful summary fetch and cache
check: threshold and throttling fetch failures are absorbed (the Go zero
values, nil slices/maps, are used), then the throttling, node and pod
entries are appended in source order; `none` propagates the parseNodeStats
panic. -/
def scrapeTail (isFullDiscovery pvFeatureEnabled : Bool) (env : NodeEnv)
    (s : Summary) (timestamp : Int) (acc : List MetricEntry) :
    Option (List MetricEntry) :=
  let thresholds :=
    match env.thresholds with
    | Except.ok th => th
    | Except.error _ => []
  let fams :=
    match env.metricFamilies with
    | Except.ok f => f
    | Except.error _ => []
  match parseNodeStats isFullDiscovery s.node thresholds timestamp with
  | none => none
  | some nodeEntries =>
      some (acc ++ generateThrottlingMetrics fams timestamp ++ nodeEntries ++
        parsePodStats isFullDiscovery pvFeatureEnabled s.pods timestamp)

/-- scrapeKubelet after the full-discovery CPU-frequency block: node IP or
summary failure ends the task with whatever was already accumulated; a cache
hit ends the task in sampling mode and adds the cache-used entry in full
mode. -/
def scrapeRest (isFullDiscovery pvFeatureEnabled : Bool) (env : NodeEnv)
    (timestamp : Int) (acc : List MetricEntry) : Option (List MetricEntry) :=
  match env.nodeIP with
  | Except.error _ => some acc
  | Except.ok _ =>
      match env.summary with
      | Except.error _ => some acc
      | Except.ok s =>
          if env.cacheUsed then
            if isFullDiscovery then
              scrapeTail isFullDiscovery pvFeatureEnabled env s timestamp
                (acc ++ [nodeCacheUsedMetric env.name])
            else some acc
          else scrapeTail isFullDiscovery pvFeatureEnabled env s timestamp acc

/-- scrapeKubelet: the entries one node's task adds to the sink, or `none`
for the modelled panic.  In full discovery a CPU-frequency failure ends the
task before anything is emitted. -/
def scrapeKubelet (isFullDiscovery pvFeatureEnabled : Bool) (env : NodeEnv)
    (timestamp : Int) : Option (List MetricEntry) :=
  if isFullDiscovery then
    match env.cpuFreq with
    | Except.error _ => some []
    | Except.ok f =>
        scrapeRest isFullDiscovery pvFeatureEnabled env timestamp
          [cpuFreqEntry env.name f]
  else scrapeRest isFullDiscovery pvFeatureEnabled env timestamp []

/-- The per-task entry lists of one cycle, one list per node in order;
`none` stands for a task panic (which crashes the Go process). -/
def scrapeAll (isFullDiscovery pvFeatureEnabled : Bool) (timestamp : Int) :
    List NodeEnv → Option (List (List MetricEntry))
  | [] => some []
  | env :: rest =>
      match scrapeKubelet isFullDiscovery pvFeatureEnabled env timestamp with
      | none => none
      | some es =>
          match scrapeAll isFullDiscovery pvFeatureEnabled timestamp rest with
          | none => none
          | some r => some (es :: r)

/-- RetrieveResourceStat: an error for a nil/empty node list, otherwise the
concatenation of every task's entries (tasks write to the shared sink; the
model fixes one interleaving, one node after the other in list order). -/
def RetrieveResourceStat (isFullDiscovery pvFeatureEnabled : Bool)
    (envs : List NodeEnv) (timestamp : Int) :
    Except String (Option (List MetricEntry)) :=
  if envs.isEmpty then
    Except.error "Invalid nodeList or empty nodeList. Finish Immediately..."
  else
    Except.ok
      ((scrapeAll isFullDiscovery pvFeatureEnabled timestamp envs).map
        List.flatten)

/-! ## The stop channel

`stopCh` is a buffered Go channel of capacity one, created fresh for each
cycle; `Stop` performs a single send, and each task's select-with-default
consumes at most one pending value (the channel is closed only after the
completion barrier, so a close is never observable by a task). -/

/-- The observable state of the stop channel while tasks run. -/
structure StopChState where
  pending : Nat
  deriving DecidableEq, Repr

/-- A fresh stop channel. -/
def newStopCh : StopChState := ⟨0⟩

/-- Stop: sends one value into the buffered channel. -/
def stopSend (st : StopChState) : StopChState := ⟨st.pending + 1⟩

/-- The select-with-default of one task: a pending value is consumed and the
task observes the signal; an empty channel takes the default branch. -/
def tryRecvStop (st : StopChState) : Bool × StopChState :=
  match st.pending with
  | 0 => (false, st)
  | n + 1 => (true, ⟨n⟩)

/-- The spawned tasks executed in one schedule order: each task first
performs its select on the stop channel and becomes a no-op when it observes
a signal, otherwise it scrapes its node. -/
def runTasks (isFullDiscovery pvFeatureEnabled : Bool) (st : StopChState)
    (timestamp : Int) : List NodeEnv → Option (List MetricEntry)
  | [] => some []
  | env :: rest =>
      let r := tryRecvStop st
      if r.1 then runTasks isFullDiscovery pvFeatureEnabled r.2 timestamp rest
      else
        match scrapeKubelet isFullDiscovery pvFeatureEnabled env timestamp with
        | none => none
        | some es =>
            match runTasks isFullDiscovery pvFeatureEnabled r.2 timestamp rest with
            | none => none
            | some rest2 => some (es ++ rest2)

/-! ## Theorems for the claims -/

/-- C1: the claim that every emitted threshold lies strictly inside (0,100)
and that an out-of-range image-filesystem threshold is replaced by its
documented default fails on the code: with memory capacity 1048576000 bytes,
rootfs and imagefs capacities 1048576000 bytes and a single nodefs.available
threshold of 20 percent, the image-filesystem fallback block assigns its 15
default to the ROOTFS variable (overwriting the valid rootfs value 20) and
the imagefs threshold metric is emitted with the out-of-range raw value 0. -/
theorem c1_imagefs_threshold_fallback_bug :
    parseThresholdMetricEntries "node1"
      (parseThresholdValues 1048576000 1048576000 1048576000
        [⟨EvictionSignal.nodeFsAvailable, ⟨1/5, 0⟩⟩]) =
    [⟨DiscoveredEntityType.node, "node1", ResourceKind.memory,
        MetricRole.threshold, MetricValue.scalar 10⟩,
     ⟨DiscoveredEntityType.node, "node1", ResourceKind.vStorage,
        MetricRole.threshold, MetricValue.scalar 15⟩,
     ⟨DiscoveredEntityType.node, "node1-imagefs", ResourceKind.vStorage,
        MetricRole.threshold, MetricValue.scalar 0⟩] := by
  norm_num [parseThresholdValues, parseThresholdMetricEntries, thresholdLoop,
    GetThresholdPercentile, Base2MegabytesToBytes]
  rfl

/-- C10: GetThresholdPercentile discriminates by the Percentage field alone:
a nonzero percentage is returned as Percentage*100 without the Quantity
field being read (the result is invariant under changing Quantity), and a
zero percentage is interpreted as an absolute quantity, returning
Quantity*100/capacity. -/
theorem c10_getThresholdPercentile_discrimination :
    ∀ (p q q2 cap : ℚ),
      (p ≠ 0 → GetThresholdPercentile ⟨p, q⟩ cap = p * 100 ∧
        GetThresholdPercentile ⟨p, q⟩ cap = GetThresholdPercentile ⟨p, q2⟩ cap) ∧
      (p = 0 → GetThresholdPercentile ⟨p, q⟩ cap = q * 100 / cap) := by
  intro p q q2 cap
  constructor
  · intro h
    constructor <;> simp [GetThresholdPercentile, h]
  · intro h
    simp [GetThresholdPercentile, h]

/-- C10 witness: the theorem applied at percentage 1/5 (20 percent),
quantities 7 and 9, capacity 50, and at percentage 0, quantity 25,
capacity 50. -/
theorem c10_getThresholdPercentile_discrimination_witness :
    (GetThresholdPercentile ⟨1/5, 7⟩ 50 = (1/5) * 100 ∧
      GetThresholdPercentile ⟨1/5, 7⟩ 50 = GetThresholdPercentile ⟨1/5, 9⟩ 50) ∧
    GetThresholdPercentile ⟨0, 25⟩ 50 = 25 * 100 / 50 :=
  ⟨(c10_getThresholdPercentile_discrimination (1/5) 7 9 50).1 (by norm_num),
   (c10_getThresholdPercentile_discrimination 0 25 9 50).2 rfl⟩

/-- Helper: the label-extraction fold never produces a container name when
no label of the set is named "container" or "container_name". -/
lemma labelFold_no_container (ls : List LabelPair) (acc : String × String × String)
    (h : ∀ l ∈ ls, l.name ≠ "container" ∧ l.name ≠ "container_name") :
    (ls.foldl labelStep acc).1 = acc.1 := by
  induction ls generalizing acc with
  | nil => rfl
  | cons l rest ih =>
      have hl := h l (List.mem_cons_self l rest)
      have hrest : ∀ x ∈ rest, x.name ≠ "container" ∧ x.name ≠ "container_name" :=
        fun x hx => h x (List.mem_cons_of_mem l hx)
      rw [List.foldl_cons, ih _ hrest]
      simp [labelStep, hl.1, hl.2]
      split_ifs <;> rfl

/-- C2: on the input holding the "total periods" family with a point
labeled container=c, namespace=ns, pod=p and value 10 and the "throttled
periods" family with a matching point of value 5, parseMetricFamilies maps
the identity "ns/p/c" to the record with cpuThrottled 5 and cpuTotal 10 (in
either family iteration order); and a point whose label set contains no
"container" or "container_name" label contributes nothing to the result. -/
theorem c2_parseMetricFamilies_correlates :
    (parseMetricFamilies
      [(ContainerCPUTotal,
        ⟨PromMetricKind.counter,
          [some ⟨[⟨"container", "c"⟩, ⟨"namespace", "ns"⟩, ⟨"pod", "p"⟩], 10⟩]⟩),
       (ContainerCPUThrottledTotal,
        ⟨PromMetricKind.counter,
          [some ⟨[⟨"container", "c"⟩, ⟨"namespace", "ns"⟩, ⟨"pod", "p"⟩], 5⟩]⟩)] =
      [("ns/p/c", ⟨5, 10⟩)]) ∧
    (parseMetricFamilies
      [(ContainerCPUThrottledTotal,
        ⟨PromMetricKind.counter,
          [some ⟨[⟨"container", "c"⟩, ⟨"namespace", "ns"⟩, ⟨"pod", "p"⟩], 5⟩]⟩),
       (ContainerCPUTotal,
        ⟨PromMetricKind.counter,
          [some ⟨[⟨"container", "c"⟩, ⟨"namespace", "ns"⟩, ⟨"pod", "p"⟩], 10⟩]⟩)] =
      [("ns/p/c", ⟨5, 10⟩)]) ∧
    ∀ (metricName : String) (parsed : List (String × throttlingMetric))
      (m : PromMetric),
      (∀ l ∈ m.labels, l.name ≠ "container" ∧ l.name ≠ "container_name") →
      processMetric metricName parsed (some m) = parsed := by
  refine ⟨?_, ?_, ?_⟩
  · simp [parseMetricFamilies, parseMetricFamiliesAux, processMetric,
      extractLabels, labelStep, upsertTM, lookupTM, ContainerCPUTotal,
      ContainerCPUThrottledTotal]
  · simp [parseMetricFamilies, parseMetricFamiliesAux, processMetric,
      extractLabels, labelStep, upsertTM, lookupTM, ContainerCPUTotal,
      ContainerCPUThrottledTotal]
  · intro metricName parsed m h
    have := labelFold_no_container m.labels ("", "", "") h
    simp [processMetric, extractLabels, this]

/-- C2 witness: a pod-scoped point (labels namespace=ns, pod=p only, no
container-level label) leaves an empty parsed map empty. -/
theorem c2_parseMetricFamilies_correlates_witness :
    processMetric "container_cpu_cfs_periods_total" []
      (some ⟨[⟨"namespace", "ns"⟩, ⟨"pod", "p"⟩], 10⟩) = [] :=
  c2_parseMetricFamilies_correlates.2.2 "container_cpu_cfs_periods_total" []
    ⟨[⟨"namespace", "ns"⟩, ⟨"pod", "p"⟩], 10⟩ (by decide)

/-- Helper: a successful lookup in the parsed map returns a member. -/
lemma lookupTM_mem (parsed : List (String × throttlingMetric)) (k : String)
    (v : throttlingMetric) (h : lookupTM parsed k = some v) : (k, v) ∈ parsed := by
  induction parsed with
  | nil => simp [lookupTM] at h
  | cons kv rest ih =>
      obtain ⟨k0, v0⟩ := kv
      rw [lookupTM] at h
      by_cases hk : k0 = k
      · subst hk
        simp at h
        subst h
        exact List.mem_cons_self _ _
      · simp [hk] at h
        exact List.mem_cons_of_mem _ (ih h)

/-- Helper: members of the map after an upsert are the new pair or old
members. -/
lemma upsertTM_mem (parsed : List (String × throttlingMetric)) (k : String)
    (v : throttlingMetric) (kv : String × throttlingMetric)
    (h : kv ∈ upsertTM parsed k v) : kv = (k, v) ∨ kv ∈ parsed := by
  induction parsed with
  | nil => simp [upsertTM] at h; left; exact h
  | cons kv0 rest ih =>
      obtain ⟨k0, v0⟩ := kv0
      rw [upsertTM] at h
      by_cases hk : k0 = k
      · simp [hk] at h
        rcases h with h | h
        · left
          simp [h]
        · right
          exact List.mem_cons_of_mem _ h
      · simp [hk] at h
        rcases h with h | h
        · right
          simp [h]
        · rcases ih h with h2 | h2
          · left; exact h2
          · right; exact List.mem_cons_of_mem _ h2

/-- Helper: a point of a family whose name is not the "total periods" name
never writes the cpuTotal field, so the all-totals-zero invariant of the
parsed map is preserved. -/
lemma processMetric_total_zero (metricName : String)
    (parsed : List (String × throttlingMetric)) (mo : Option PromMetric)
    (hname : metricName ≠ ContainerCPUTotal)
    (hinv : ∀ kv ∈ parsed, kv.2.cpuTotal = 0) :
    ∀ kv ∈ processMetric metricName parsed mo, kv.2.cpuTotal = 0 := by
  intro kv hkv
  match mo with
  | none => exact hinv kv hkv
  | some m =>
      rw [processMetric] at hkv
      by_cases hext : (extractLabels m.labels).1 = ""
      · simp [hext] at hkv
        exact hinv kv hkv
      · simp [hext, hname] at hkv
        rcases upsertTM_mem _ _ _ _ hkv with h | h
        · subst h
          by_cases hl : ∃ v, lookupTM parsed ((extractLabels m.labels).2.1 ++ "/" ++
              (extractLabels m.labels).2.2 ++ "/" ++ (extractLabels m.labels).1) = some v
          · obtain ⟨v, hv⟩ := hl
            simp [hv]
            exact hinv _ (lookupTM_mem _ _ _ hv)
          · push_neg at hl
            have : lookupTM parsed ((extractLabels m.labels).2.1 ++ "/" ++
                (extractLabels m.labels).2.2 ++ "/" ++ (extractLabels m.labels).1) = none := by
              cases hx : lookupTM parsed ((extractLabels m.labels).2.1 ++ "/" ++
                (extractLabels m.labels).2.2 ++ "/" ++ (extractLabels m.labels).1) with
              | none => rfl
              | some v => exact absurd hx (hl v)
            simp [this]
        · exact hinv kv h

/-- Helper: the per-family point fold preserves the all-totals-zero
invariant when the family is not the "total periods" family. -/
lemma foldl_processMetric_total_zero (metricName : String)
    (hname : metricName ≠ ContainerCPUTotal)
    (ms : List (Option PromMetric)) (parsed : List (String × throttlingMetric))
    (hinv : ∀ kv ∈ parsed, kv.2.cpuTotal = 0) :
    ∀ kv ∈ ms.foldl (processMetric metricName) parsed, kv.2.cpuTotal = 0 := by
  induction ms generalizing parsed with
  | nil => exact hinv
  | cons mo rest ih =>
      rw [List.foldl_cons]
      exact ih _ (processMetric_total_zero metricName parsed mo hname hinv)

/-- Helper: when no input family carries the "total periods" name, every
record of the parsed map has cpuTotal zero. -/
lemma parseMetricFamiliesAux_total_zero :
    ∀ (fams : List (String × PromMetricFamily))
      (parsed : List (String × throttlingMetric)),
      (∀ p ∈ fams, p.1 ≠ ContainerCPUTotal) →
      (∀ kv ∈ parsed, kv.2.cpuTotal = 0) →
      ∀ kv ∈ parseMetricFamiliesAux parsed fams, kv.2.cpuTotal = 0 := by
  intro fams
  induction fams with
  | nil =>
      intro parsed _ hinv
      exact hinv
  | cons p rest ih =>
      intro parsed hfams hinv
      obtain ⟨metricName, family⟩ := p
      rw [parseMetricFamiliesAux]
      by_cases hk : family.kind = PromMetricKind.counter
      · rw [if_neg (by simp [hk])]
        exact ih _ (fun q hq => hfams q (List.mem_cons_of_mem _ hq))
          (foldl_processMetric_total_zero metricName
            (hfams _ (List.mem_cons_self _ _)) family.metric parsed hinv)
      · rw [if_pos hk]
        exact hinv

/-- An input whose only family is the "throttled periods" family with one
container-labeled point of value 5; used to settle C3. -/
def throttledOnlyFamilies : List (String × PromMetricFamily) :=
  [(ContainerCPUThrottledTotal,
    ⟨PromMetricKind.counter,
      [some ⟨[⟨"container", "c"⟩, ⟨"namespace", "ns"⟩, ⟨"pod", "p"⟩], 5⟩]⟩)]

/-- C3 counterexample: with the "total periods" family absent and the
"throttled periods" family reporting a container-labeled point of value 5,
correlation followed by generateThrottlingMetrics does emit a throttling
entry, and its total is zero-filled — refuting the claim that no entry is
generated for any identity in this situation. -/
theorem c3_absent_total_counterexample :
    generateThrottlingMetrics throttledOnlyFamilies 7 =
      [genThrottlingMetricEntry DiscoveredEntityType.container "ns/p/c" 5 0 7] ∧
    generateThrottlingMetrics throttledOnlyFamilies 7 ≠ [] := by
  constructor
  · simp [throttledOnlyFamilies, generateThrottlingMetrics, parseMetricFamilies,
      parseMetricFamiliesAux, processMetric, extractLabels, labelStep, upsertTM,
      lookupTM, ContainerCPUTotal, ContainerCPUThrottledTotal]
  · simp [throttledOnlyFamilies, generateThrottlingMetrics, parseMetricFamilies,
      parseMetricFamiliesAux, processMetric, extractLabels, labelStep, upsertTM,
      lookupTM, ContainerCPUTotal, ContainerCPUThrottledTotal]

/-- The derived "namespace/pod/container" identity of one container-labeled
point, as parseMetricFamilies builds it from the extracted labels. -/
def containerMetricID (pm : PromMetric) : String :=
  (extractLabels pm.labels).2.1 ++ "/" ++ (extractLabels pm.labels).2.2 ++
    "/" ++ (extractLabels pm.labels).1

/-- Helper: lookup after an upsert returns the new value at its key and is
unchanged elsewhere. -/
lemma lookupTM_upsertTM (parsed : List (String × throttlingMetric))
    (k : String) (v : throttlingMetric) (k' : String) :
    lookupTM (upsertTM parsed k v) k' =
      if k = k' then some v else lookupTM parsed k' := by
  induction parsed with
  | nil => simp [upsertTM, lookupTM]
  | cons kv rest ih =>
      obtain ⟨k0, v0⟩ := kv
      rw [upsertTM]
      by_cases hk : k0 = k
      · rw [if_pos hk]
        subst hk
        by_cases hk' : k0 = k'
        · subst hk'
          simp [lookupTM]
        · simp [lookupTM, hk']
      · rw [if_neg hk]
        by_cases hk' : k0 = k'
        · subst hk'
          have hkk' : k ≠ k0 := fun h => hk h.symm
          simp [lookupTM, hkk']
        · simp [lookupTM, hk', ih]

/-- Helper: processing one point never removes a key from the parsed map. -/
lemma processMetric_preserves_key (mn : String)
    (parsed : List (String × throttlingMetric)) (mo : Option PromMetric)
    (k : String) (h : ∃ v, lookupTM parsed k = some v) :
    ∃ v, lookupTM (processMetric mn parsed mo) k = some v := by
  match mo with
  | none => exact h
  | some pm =>
      by_cases hext : (extractLabels pm.labels).1 = ""
      · simp only [processMetric, hext, if_true]
        exact h
      · simp [processMetric, hext]
        rw [lookupTM_upsertTM]
        by_cases hid : (extractLabels pm.labels).2.1 ++ "/" ++
            (extractLabels pm.labels).2.2 ++ "/" ++ (extractLabels pm.labels).1 = k
        · exact ⟨_, by rw [if_pos hid]⟩
        · obtain ⟨v, hv⟩ := h
          exact ⟨v, by rw [if_neg hid]; exact hv⟩

/-- Helper: processing a container-labeled point puts its derived identity
into the parsed map. -/
lemma processMetric_adds_key (mn : String)
    (parsed : List (String × throttlingMetric)) (pm : PromMetric)
    (hext : (extractLabels pm.labels).1 ≠ "") :
    ∃ v, lookupTM (processMetric mn parsed (some pm))
      (containerMetricID pm) = some v := by
  simp [processMetric, hext, containerMetricID]
  rw [lookupTM_upsertTM]
  exact ⟨_, by rw [if_pos rfl]⟩

/-- Helper: the per-family point fold never removes a key. -/
lemma foldl_processMetric_preserves_key (mn : String)
    (ms : List (Option PromMetric)) :
    ∀ (parsed : List (String × throttlingMetric)) (k : String),
      (∃ v, lookupTM parsed k = some v) →
      ∃ v, lookupTM (ms.foldl (processMetric mn) parsed) k = some v := by
  induction ms with
  | nil => intro parsed k h; exact h
  | cons mo rest ih =>
      intro parsed k h
      rw [List.foldl_cons]
      exact ih _ k (processMetric_preserves_key mn parsed mo k h)

/-- Helper: after folding a family's points, every container-labeled point
of the family has its identity in the parsed map. -/
lemma foldl_processMetric_adds_key (mn : String) :
    ∀ (ms : List (Option PromMetric))
      (parsed : List (String × throttlingMetric)) (pm : PromMetric),
      some pm ∈ ms → (extractLabels pm.labels).1 ≠ "" →
      ∃ v, lookupTM (ms.foldl (processMetric mn) parsed)
        (containerMetricID pm) = some v := by
  intro ms
  induction ms with
  | nil => intro parsed pm hm; exact absurd hm (by simp)
  | cons mo rest ih =>
      intro parsed pm hm hext
      rw [List.foldl_cons]
      rcases List.mem_cons.mp hm with h | h
      · subst h
        exact foldl_processMetric_preserves_key mn rest _ _
          (processMetric_adds_key mn parsed pm hext)
      · exact ih _ pm h hext

/-- Helper: the family loop never removes a key from the parsed map (a
non-counter family aborts, returning the map unchanged). -/
lemma parseMetricFamiliesAux_preserves_key :
    ∀ (fams : List (String × PromMetricFamily))
      (parsed : List (String × throttlingMetric)) (k : String),
      (∃ v, lookupTM parsed k = some v) →
      ∃ v, lookupTM (parseMetricFamiliesAux parsed fams) k = some v := by
  intro fams
  induction fams with
  | nil => intro parsed k h; exact h
  | cons p rest ih =>
      intro parsed k h
      obtain ⟨mn, fam⟩ := p
      rw [parseMetricFamiliesAux]
      by_cases hk : fam.kind = PromMetricKind.counter
      · rw [if_neg (by simp [hk])]
        exact ih _ k (foldl_processMetric_preserves_key mn fam.metric parsed k h)
      · rw [if_pos hk]
        exact h

/-- Helper: when every family is of counter kind (so the loop never aborts),
every container-labeled point of every family ends with its derived identity
in the parsed map. -/
lemma parseMetricFamiliesAux_adds_key :
    ∀ (fams : List (String × PromMetricFamily))
      (parsed : List (String × throttlingMetric)) (mn : String)
      (fam : PromMetricFamily) (pm : PromMetric),
      (∀ p ∈ fams, p.2.kind = PromMetricKind.counter) →
      (mn, fam) ∈ fams → some pm ∈ fam.metric →
      (extractLabels pm.labels).1 ≠ "" →
      ∃ v, lookupTM (parseMetricFamiliesAux parsed fams)
        (containerMetricID pm) = some v := by
  intro fams
  induction fams with
  | nil => intro parsed mn fam pm _ hmem; exact absurd hmem (by simp)
  | cons p rest ih =>
      intro parsed mn fam pm hcnt hmem hpt hext
      obtain ⟨mn0, fam0⟩ := p
      rw [parseMetricFamiliesAux]
      have hk0 : fam0.kind = PromMetricKind.counter :=
        hcnt (mn0, fam0) (List.mem_cons_self _ _)
      rw [if_neg (by simp [hk0])]
      rcases List.mem_cons.mp hmem with h | h
      · injection h with h1 h2
        subst h1
        subst h2
        exact parseMetricFamiliesAux_preserves_key rest _ _
          (foldl_processMetric_adds_key mn fam.metric parsed pm hpt hext)
      · exact ih _ mn fam pm
          (fun q hq => hcnt q (List.mem_cons_of_mem _ hq)) h hpt hext

/-- C3 amended: when the "total periods" family is absent from the input,
correlation followed by generateThrottlingMetrics still emits an entry for
every identity reported by the remaining counter families, each with its
total zero-filled — it is a consumer-side obligation to treat a zero total
as "no ratio available"; no entry appears only for identities with no
reported container-labeled point.  Conjuncts: every emitted entry is
zero-filled in total; every container-labeled point of every (counter)
family yields a zero-total entry for its derived identity; and the
throttled-only input concretely yields a non-empty entry list. -/
theorem c3_absent_total_zero_filled :
    (∀ (fams : List (String × PromMetricFamily)) (ts : Int),
      (∀ p ∈ fams, p.1 ≠ ContainerCPUTotal) →
      ∀ e ∈ generateThrottlingMetrics fams ts,
        ∃ id thr, e = genThrottlingMetricEntry DiscoveredEntityType.container
          id thr 0 ts) ∧
    (∀ (fams : List (String × PromMetricFamily)) (ts : Int),
      (∀ p ∈ fams, p.2.kind = PromMetricKind.counter) →
      (∀ p ∈ fams, p.1 ≠ ContainerCPUTotal) →
      ∀ (metricName : String) (family : PromMetricFamily),
        (metricName, family) ∈ fams →
        ∀ pm : PromMetric, some pm ∈ family.metric →
        (extractLabels pm.labels).1 ≠ "" →
        ∃ thr, genThrottlingMetricEntry DiscoveredEntityType.container
          (containerMetricID pm) thr 0 ts ∈ generateThrottlingMetrics fams ts) ∧
    generateThrottlingMetrics throttledOnlyFamilies 7 ≠ [] := by
  refine ⟨?_, ?_, ?_⟩
  · intro fams ts hfams e he
    rw [generateThrottlingMetrics] at he
    obtain ⟨kv, hkv, rfl⟩ := List.mem_map.mp he
    have := parseMetricFamiliesAux_total_zero fams [] hfams (by simp) kv hkv
    exact ⟨kv.1, kv.2.cpuThrottled, by rw [this]⟩
  · intro fams ts hcnt htot metricName family hmem pm hpt hext
    obtain ⟨v, hv⟩ := parseMetricFamiliesAux_adds_key fams [] metricName family
      pm hcnt hmem hpt hext
    have hmem2 : (containerMetricID pm, v) ∈ parseMetricFamilies fams :=
      lookupTM_mem _ _ _ hv
    have htotal : v.cpuTotal = 0 :=
      parseMetricFamiliesAux_total_zero fams [] htot (by simp) _ hmem2
    refine ⟨v.cpuThrottled, ?_⟩
    rw [generateThrottlingMetrics]
    have hmap := List.mem_map_of_mem
      (fun p => genThrottlingMetricEntry DiscoveredEntityType.container p.1
        p.2.cpuThrottled p.2.cpuTotal ts) hmem2
    simpa [htotal] using hmap
  · simp [throttledOnlyFamilies, generateThrottlingMetrics, parseMetricFamilies,
      parseMetricFamiliesAux, processMetric, extractLabels, labelStep, upsertTM,
      lookupTM, ContainerCPUTotal, ContainerCPUThrottledTotal]

/-- C3 witness: the amended theorem's completeness conjunct applied to the
throttled-only input: its single container-labeled point of identity
ns/p/c receives a zero-total entry. -/
theorem c3_absent_total_zero_filled_witness :
    ∃ thr, genThrottlingMetricEntry DiscoveredEntityType.container
      (containerMetricID ⟨[⟨"container", "c"⟩, ⟨"namespace", "ns"⟩, ⟨"pod", "p"⟩], 5⟩)
      thr 0 7 ∈ generateThrottlingMetrics throttledOnlyFamilies 7 :=
  c3_absent_total_zero_filled.2.1 throttledOnlyFamilies 7 (by decide) (by decide)
    ContainerCPUThrottledTotal
    ⟨PromMetricKind.counter,
      [some ⟨[⟨"container", "c"⟩, ⟨"namespace", "ns"⟩, ⟨"pod", "p"⟩], 5⟩]⟩
    (by simp [throttledOnlyFamilies])
    ⟨[⟨"container", "c"⟩, ⟨"namespace", "ns"⟩, ⟨"pod", "p"⟩], 5⟩
    (by simp) (by decide)

/-- An input whose only family carries a name that is neither of the two
throttling family names, with one container-labeled counter point; used to
settle C4. -/
def unknownFamilyInput : List (String × PromMetricFamily) :=
  [("container_cpu_usage_seconds_total",
    ⟨PromMetricKind.counter,
      [some ⟨[⟨"container", "c"⟩, ⟨"namespace", "ns"⟩, ⟨"pod", "p"⟩], 7⟩]⟩)]

/-- C4 counterexample: a counter family named neither "total periods" nor
"throttled periods" is not ignored by parseMetricFamilies: its
container-labeled point creates a throttling record (written into the
cpuThrottled field), refuting the claim that such points produce no change. -/
theorem c4_unknown_family_counterexample :
    parseMetricFamilies unknownFamilyInput = [("ns/p/c", ⟨7, 0⟩)] ∧
    parseMetricFamilies unknownFamilyInput ≠ [] := by
  constructor
  · simp [unknownFamilyInput, parseMetricFamilies, parseMetricFamiliesAux,
      processMetric, extractLabels, labelStep, upsertTM, lookupTM,
      ContainerCPUTotal]
  · simp [unknownFamilyInput, parseMetricFamilies, parseMetricFamiliesAux,
      processMetric, extractLabels, labelStep, upsertTM, lookupTM,
      ContainerCPUTotal]

/-- C4 amended: parseMetricFamilies distinguishes only the "total periods"
name: a single counter family with one container-labeled point yields the
record with cpuTotal set when the family carries that name, and with
cpuThrottled set for EVERY other family name (unknown families are merged as
throttled values, not ignored). -/
theorem c4_single_family_merge :
    ∀ (metricName : String) (ls : List LabelPair) (v : ℚ),
      (extractLabels ls).1 ≠ "" →
      parseMetricFamilies [(metricName, ⟨PromMetricKind.counter, [some ⟨ls, v⟩]⟩)] =
        [((extractLabels ls).2.1 ++ "/" ++ (extractLabels ls).2.2 ++ "/" ++
            (extractLabels ls).1,
          if metricName = ContainerCPUTotal then ⟨0, v⟩ else ⟨v, 0⟩)] := by
  intro metricName ls v h
  by_cases hname : metricName = ContainerCPUTotal <;>
    simp [parseMetricFamilies, parseMetricFamiliesAux, processMetric,
      upsertTM, lookupTM, h, hname]

/-- C4 witness: the amended theorem applied to an unknown family name and a
concrete container-labeled point. -/
theorem c4_single_family_merge_witness :
    parseMetricFamilies
      [("container_cpu_usage_seconds_total",
        ⟨PromMetricKind.counter,
          [some ⟨[⟨"container", "c"⟩, ⟨"namespace", "ns"⟩, ⟨"pod", "p"⟩], 7⟩]⟩)] =
      [(("ns" : String) ++ "/" ++ "p" ++ "/" ++ "c",
        if ("container_cpu_usage_seconds_total" : String) = ContainerCPUTotal then
          (⟨0, 7⟩ : throttlingMetric)
        else ⟨7, 0⟩)] := by
  have := c4_single_family_merge "container_cpu_usage_seconds_total"
    [⟨"container", "c"⟩, ⟨"namespace", "ns"⟩, ⟨"pod", "p"⟩] 7 (by decide)
  simpa [extractLabels, labelStep] using this

/-- Node statistics whose runtime image-filesystem stats carry a UsedBytes
value but no AvailableBytes value; used to settle C9. -/
def imagefsPanicNodeStats : NodeStats :=
  ⟨"n1", none, none, none, some ⟨some ⟨some 1000, some 500, none⟩⟩⟩

/-- C9: the claim that parsing is total over all combinations of absent
optional sub-fields fails on the code: parseNodeStats guards the imagefs
available-bytes assignment with a nil check on UsedBytes but dereferences
AvailableBytes, so node statistics with imagefs UsedBytes present and
AvailableBytes absent make the parser fault (a nil-pointer panic, modelled
as `none`) in both discovery modes, discarding the rest of the node's data. -/
theorem c9_parseNodeStats_imagefs_panic :
    parseNodeStats true imagefsPanicNodeStats [] 0 = none ∧
    parseNodeStats false imagefsPanicNodeStats [] 0 = none := by
  constructor <;> rfl

/-- C5: when the client reports the last response was served from cache, a
sampling-mode scrape task returns immediately and emits no entries for the
node; a full-mode task (with its preceding frequency, IP and summary calls
succeeding) adds the "cache used" node state metric right after the
CPU-frequency entry and otherwise collects exactly the metrics of a
non-cached run. -/
theorem c5_cache_hit_mode_behavior :
    ∀ (pv : Bool) (env : NodeEnv) (ts : Int),
      (env.cacheUsed = true → scrapeKubelet false pv env ts = some []) ∧
      (∀ f ip s, env.cacheUsed = true → env.cpuFreq = Except.ok f →
        env.nodeIP = Except.ok ip → env.summary = Except.ok s →
        scrapeKubelet true pv env ts =
          (scrapeKubelet true pv {env with cacheUsed := false} ts).map
            (fun es => es.take 1 ++ [nodeCacheUsedMetric env.name] ++ es.drop 1)) := by
  intro pv env ts
  constructor
  · intro hc
    cases hip : env.nodeIP with
    | error e => simp [scrapeKubelet, scrapeRest, hip]
    | ok ip =>
        cases hs : env.summary with
        | error e => simp [scrapeKubelet, scrapeRest, hip, hs]
        | ok s => simp [scrapeKubelet, scrapeRest, hip, hs, hc]
  · intro f ip s hc hf hip hs
    simp only [scrapeKubelet, scrapeRest, scrapeTail, hf, hip, hs, hc, if_true]
    split <;> simp

/-- A node environment reporting a cache hit with all calls succeeding and
an otherwise empty summary; used as the C5 witness input. -/
def cacheHitEnv : NodeEnv :=
  ⟨"n2", Except.ok 2000, Except.ok "10.0.0.2",
    Except.ok ⟨⟨"n2", none, none, none, none⟩, []⟩, true, Except.ok [],
    Except.ok []⟩

/-- C5 witness: the theorem applied to the concrete cache-hit environment in
both discovery modes. -/
theorem c5_cache_hit_mode_behavior_witness :
    scrapeKubelet false true cacheHitEnv 0 = some [] ∧
    scrapeKubelet true true cacheHitEnv 0 =
      (scrapeKubelet true true {cacheHitEnv with cacheUsed := false} 0).map
        (fun es => es.take 1 ++ [nodeCacheUsedMetric cacheHitEnv.name] ++
          es.drop 1) :=
  ⟨(c5_cache_hit_mode_behavior true cacheHitEnv 0).1 rfl,
   (c5_cache_hit_mode_behavior true cacheHitEnv 0).2 2000 "10.0.0.2"
     ⟨⟨"n2", none, none, none, none⟩, []⟩ rfl rfl rfl rfl⟩

/-- Helper: a successful cycle decomposes into one successful scrape per
node, in order. -/
lemma scrapeAll_forall₂ (full pv : Bool) (ts : Int) :
    ∀ (envs : List NodeEnv) (per : List (List MetricEntry)),
      scrapeAll full pv ts envs = some per →
      List.Forall₂ (fun env es => scrapeKubelet full pv env ts = some es) envs per := by
  intro envs
  induction envs with
  | nil =>
      intro per h
      rw [scrapeAll] at h
      obtain rfl := Option.some_inj.mp h
      exact List.Forall₂.nil
  | cons env rest ih =>
      intro per h
      rw [scrapeAll] at h
      cases hs : scrapeKubelet full pv env ts with
      | none => rw [hs] at h; exact absurd h (by simp)
      | some es =>
          rw [hs] at h
          cases hr : scrapeAll full pv ts rest with
          | none => rw [hr] at h; exact absurd h (by simp)
          | some r =>
              rw [hr] at h
              obtain rfl := Option.some_inj.mp h
              exact List.Forall₂.cons hs (ih r hr)

/-- Helper: a non-faulting parseNodeStats always emits at least the node
CPU-used and memory-used entries. -/
lemma parseNodeStats_ne_nil (full : Bool) (ns : NodeStats)
    (th : List EvictionThreshold) (ts : Int) (r : List MetricEntry)
    (h : parseNodeStats full ns th ts = some r) : r ≠ [] := by
  rw [parseNodeStats] at h
  cases hia : imagefsAvailableResult ns with
  | none => rw [hia] at h; exact absurd h (by simp)
  | some a =>
      simp only [hia] at h
      obtain rfl := Option.some_inj.mp h
      simp [genUsedMetrics]

/-- Helper: a scrape that reaches the per-summary tail emits a non-empty
entry list. -/
lemma scrapeTail_ne_nil (full pv : Bool) (env : NodeEnv) (s : Summary)
    (ts : Int) (acc es : List MetricEntry)
    (h : scrapeTail full pv env s ts acc = some es) : es ≠ [] := by
  rw [scrapeTail] at h
  cases hth : env.thresholds with
  | error e =>
      simp only [hth] at h
      cases hpn : parseNodeStats full s.node [] ts with
      | none => rw [hpn] at h; exact absurd h (by simp)
      | some ne =>
          rw [hpn] at h
          obtain rfl := Option.some_inj.mp h
          intro hcon
          simp [List.append_eq_nil] at hcon
          exact parseNodeStats_ne_nil full s.node [] ts ne hpn hcon.2.2.1
  | ok th =>
      simp only [hth] at h
      cases hpn : parseNodeStats full s.node th ts with
      | none => rw [hpn] at h; exact absurd h (by simp)
      | some ne =>
          rw [hpn] at h
          obtain rfl := Option.some_inj.mp h
          intro hcon
          simp [List.append_eq_nil] at hcon
          exact parseNodeStats_ne_nil full s.node th ts ne hpn hcon.2.2.1

/-- A full-discovery node environment whose CPU-frequency fetch succeeds and
whose summary fetch fails; used to settle C6. -/
def summaryFailEnv : NodeEnv :=
  ⟨"n3", Except.ok 2000, Except.ok "10.0.0.3", Except.error (), false,
    Except.ok [], Except.ok []⟩

/-- C6 counterexample: in full discovery, a node whose summary fetch fails
still contributes its CPU-frequency state entry (emitted before the summary
fetch) to the returned sink, refuting the claim that such a node contributes
no entries at all in either mode. -/
theorem c6_summary_failure_counterexample :
    RetrieveResourceStat true true [summaryFailEnv] 0 =
      Except.ok (some [cpuFreqEntry "n3" 2000]) ∧
    [cpuFreqEntry "n3" 2000] ≠ ([] : List MetricEntry) := by
  constructor
  · rfl
  · simp

/-- C6 amended: a successful cycle's sink is the concatenation of one entry
list per node; a node whose summary fetch fails contributes no entries in
sampling mode and at most its CPU-frequency state entry in full mode; a node
all of whose client calls succeed (without a cache hit) contributes a
non-empty entry list. -/
theorem c6_cycle_sink_contributions :
    (∀ (full pv : Bool) (envs : List NodeEnv) (ts : Int)
        (sink : List MetricEntry),
      RetrieveResourceStat full pv envs ts = Except.ok (some sink) →
      ∃ per, List.Forall₂
          (fun env es => scrapeKubelet full pv env ts = some es) envs per ∧
        sink = per.flatten) ∧
    (∀ (pv : Bool) (env : NodeEnv) (ts : Int) (es : List MetricEntry),
      scrapeKubelet false pv env ts = some es →
      env.summary = Except.error () → es = []) ∧
    (∀ (pv : Bool) (env : NodeEnv) (ts : Int) (es : List MetricEntry),
      scrapeKubelet true pv env ts = some es →
      env.summary = Except.error () →
      es = [] ∨ ∃ f, env.cpuFreq = Except.ok f ∧ es = [cpuFreqEntry env.name f]) ∧
    (∀ (full pv : Bool) (env : NodeEnv) (ts : Int) (es : List MetricEntry)
        (f : ℚ) (ip : String) (s : Summary),
      env.cpuFreq = Except.ok f → env.nodeIP = Except.ok ip →
      env.summary = Except.ok s → env.cacheUsed = false →
      scrapeKubelet full pv env ts = some es → es ≠ []) := by
  refine ⟨?_, ?_, ?_, ?_⟩
  · intro full pv envs ts sink h
    rw [RetrieveResourceStat] at h
    by_cases he : envs.isEmpty
    · rw [if_pos he] at h
      exact absurd h (by simp)
    · rw [if_neg he] at h
      cases hs : scrapeAll full pv ts envs with
      | none => rw [hs] at h; exact absurd h (by simp)
      | some per =>
          rw [hs] at h
          simp at h
          exact ⟨per, scrapeAll_forall₂ full pv ts envs per hs, by simp [h]⟩
  · intro pv env ts es h hsum
    cases hip : env.nodeIP with
    | error e =>
        simp [scrapeKubelet, scrapeRest, hip] at h
        exact h
    | ok ip =>
        simp [scrapeKubelet, scrapeRest, hip, hsum] at h
        exact h
  · intro pv env ts es h hsum
    cases hf : env.cpuFreq with
    | error e =>
        simp [scrapeKubelet, hf] at h
        exact Or.inl h
    | ok f =>
        cases hip : env.nodeIP with
        | error e =>
            simp [scrapeKubelet, scrapeRest, hf, hip] at h
            exact Or.inr ⟨f, rfl, h.symm⟩
        | ok ip =>
            simp [scrapeKubelet, scrapeRest, hf, hip, hsum] at h
            exact Or.inr ⟨f, rfl, h.symm⟩
  · intro full pv env ts es f ip s hf hip hs hcache h
    cases full with
    | false =>
        simp [scrapeKubelet, scrapeRest, hip, hs, hcache] at h
        exact scrapeTail_ne_nil false pv env s ts [] es h
    | true =>
        simp [scrapeKubelet, scrapeRest, hf, hip, hs, hcache] at h
        exact scrapeTail_ne_nil true pv env s ts [cpuFreqEntry env.name f] es h

/-- C6 witness: the amended theorem's cycle decomposition applied to the
one-node list whose summary fetch fails. -/
theorem c6_cycle_sink_contributions_witness :
    ∃ per, List.Forall₂
        (fun env es => scrapeKubelet true true env 0 = some es)
        [summaryFailEnv] per ∧
      [cpuFreqEntry "n3" 2000] = per.flatten :=
  c6_cycle_sink_contributions.1 true true [summaryFailEnv] 0
    [cpuFreqEntry "n3" 2000] rfl

/-- C7: RetrieveResourceStat returns an error exactly when the node list is
empty; for every non-empty node list — whatever mixture of per-node
frequency, summary, threshold or throttling fetch failures its environments
carry — the cycle itself returns without error. -/
theorem c7_error_iff_empty_nodes :
    ∀ (full pv : Bool) (envs : List NodeEnv) (ts : Int),
      (∃ e, RetrieveResourceStat full pv envs ts = Except.error e) ↔ envs = [] := by
  intro full pv envs ts
  cases envs with
  | nil => simp [RetrieveResourceStat]
  | cons env rest => simp [RetrieveResourceStat]

/-- C7 witness: the theorem applied to the empty list (error direction) and
to the one-node list with every per-node fetch failing (no-error direction). -/
theorem c7_error_iff_empty_nodes_witness :
    (∃ e, RetrieveResourceStat true true ([] : List NodeEnv) 0 =
      Except.error e) ∧
    ¬∃ e, RetrieveResourceStat true true
      [⟨"n4", Except.error (), Except.error (), Except.error (), false,
        Except.error (), Except.error ()⟩] 0 = Except.error e :=
  ⟨(c7_error_iff_empty_nodes true true [] 0).mpr rfl,
   fun h => by
    have := (c7_error_iff_empty_nodes true true
      [⟨"n4", Except.error (), Except.error (), Except.error (), false,
        Except.error (), Except.error ()⟩] 0).mp h
    simp at this⟩

/-- A sampling-mode node environment whose scrape succeeds; first task of
the C8 schedule. -/
def stopEnvA : NodeEnv :=
  ⟨"na", Except.ok 1000, Except.ok "10.0.0.4",
    Except.ok ⟨⟨"na", some ⟨some 1000000000⟩, some ⟨some 1024, some 0⟩, none, none⟩, []⟩,
    false, Except.ok [], Except.ok []⟩

/-- A sampling-mode node environment whose scrape succeeds; second task of
the C8 schedule. -/
def stopEnvB : NodeEnv :=
  ⟨"nb", Except.ok 1000, Except.ok "10.0.0.5",
    Except.ok ⟨⟨"nb", some ⟨some 2000000000⟩, some ⟨some 2048, some 0⟩, none, none⟩, []⟩,
    false, Except.ok [], Except.ok []⟩

/-- C8: the claim that one Stop invocation is a broadcast observed by every
task fails on the code: the stop channel is a buffered channel of capacity
one and Stop performs a single send, so after one Stop before any task's
initial check, only the first scheduled task consumes the value and becomes
a no-op; the second task finds the channel empty, takes its select default
branch and scrapes its node, leaving a non-empty final sink (here the two
used-metric entries of node nb). -/
theorem c8_stop_signal_not_broadcast :
    runTasks false true (stopSend newStopCh) 0 [stopEnvA, stopEnvB] =
      some [⟨DiscoveredEntityType.node, "nb", ResourceKind.cpu, MetricRole.used,
              MetricValue.points [(2, 0)]⟩,
            ⟨DiscoveredEntityType.node, "nb", ResourceKind.memory, MetricRole.used,
              MetricValue.points [(2, 0)]⟩] ∧
    runTasks false true (stopSend newStopCh) 0 [stopEnvA, stopEnvB] ≠ some [] := by
  have h : runTasks false true (stopSend newStopCh) 0 [stopEnvA, stopEnvB] =
      some [⟨DiscoveredEntityType.node, "nb", ResourceKind.cpu, MetricRole.used,
              MetricValue.points [(2, 0)]⟩,
            ⟨DiscoveredEntityType.node, "nb", ResourceKind.memory, MetricRole.used,
              MetricValue.points [(2, 0)]⟩] := by
    simp [runTasks, tryRecvStop, stopSend, newStopCh, scrapeKubelet, scrapeRest,
      scrapeTail, parseNodeStats, imagefsAvailableResult, parsePodStats,
      generateThrottlingMetrics, parseMetricFamilies, parseMetricFamiliesAux,
      genUsedMetrics, MetricNanoToUnit, Base2BytesToKilobytes, NodeStatsKeyFunc,
      stopEnvA, stopEnvB]
    norm_num
  exact ⟨h, by rw [h]; simp⟩

end Kubeturbo
